import Mathlib

/-!
Shallow embedding of the customer-segmentation pipeline implemented in
`src/utils/segmentation.py` (entry point `run_full_analysis`) together with
the case normalization performed by its caller `src/app.py`.

Modelling conventions:
* Python floats are modelled as exact rationals (`ℚ`); the claims under
  study are about branch structure, exact constants, ordering and error
  surfaces, none of which hinge on binary-float artifacts.
* A Python expression that can raise is modelled with `Option`: `none` is
  the raised exception propagating out of the expression.
* External collaborators (the CSV reader and the fitted scikit-learn
  k-means labelling, which the spec treats as external to the core) enter
  as parameters of the orchestrator, so every theorem quantifies over
  their behaviour.
* Rounding: pandas `DataFrame.round(2)` and Python float formatting round
  half to even; this is modelled exactly on `ℚ` by `roundHalfEven`.
-/

namespace CSeg

/-! ## Numeric helpers (Python `int(...)`, pandas `round(2)`, float division) -/

/-- Python `int(x)` on a number: truncation toward zero. -/
def pytrunc (q : ℚ) : ℤ := if 0 ≤ q then ⌊q⌋ else ⌈q⌉

/-- Round to the nearest integer with ties going to the even integer, the
rounding rule used by pandas `round` and Python float formatting. -/
def roundHalfEven (q : ℚ) : ℤ :=
  let f : ℤ := ⌊q⌋
  let r : ℚ := q - f
  if r < 1/2 then f
  else if 1/2 < r then f + 1
  else if f % 2 = 0 then f else f + 1

/-- Round to 2 decimal places (pandas `.round(2)` / the `:.2f` rendering). -/
def round2 (q : ℚ) : ℚ := (roundHalfEven (q * 100) : ℚ) / 100

/-- Python float division: raises `ZeroDivisionError` on a zero divisor,
modelled as `none`. -/
def pydiv (a b : ℚ) : Option ℚ := if b = 0 then none else some (a / b)

/-! ## Certainty-Factor engine (source lines 97-102) -/

/-- The `cf_mapping` dict of named confidence levels (source line 97). -/
def cf_mapping : List (String × ℚ) :=
  [("sangat_tinggi", 9/10), ("tinggi", 7/10), ("sedang", 4/10), ("rendah", 2/10),
   ("pasti", 1), ("hampir_pasti", 8/10), ("kemungkinan_besar", 6/10), ("mungkin", 4/10),
   ("tidak_tahu", 0), ("mungkin_tidak", -(2/10)), ("kemungkinan_besar_tidak", -(6/10)),
   ("hampir_pasti_tidak", -(8/10)), ("pasti_tidak", -1)]

/-- Dictionary access `cf_mapping[s]`; every access in the source uses a
literal key that is present, so a total lookup with default is exact on
the reachable inputs. -/
def cfVal (s : String) : ℚ := (cf_mapping.lookup s).getD 0

/-- `calculate_cf_combination` (source lines 99-102).  The mixed-sign
branch divides by `1 - min(|cf1|, |cf2|)` with no guard, so it raises
`ZeroDivisionError` (modelled `none`) when that quantity is zero. -/
def calculate_cf_combination (cf1 cf2 : ℚ) : Option ℚ :=
  if 0 ≤ cf1 ∧ 0 ≤ cf2 then some (cf1 + cf2 * (1 - cf1))
  else if cf1 < 0 ∧ cf2 < 0 then some (cf1 + cf2 * (1 + cf1))
  else pydiv (cf1 + cf2) (1 - min |cf1| |cf2|)

/-! ## Data model -/

/-- One customer record: the ten required numeric features and the four
required categorical features (source lines 31-32).  pandas parses the
`Target_Churn` column as booleans. -/
structure CustomerRow where
  Age : ℚ
  Annual_Income : ℚ
  Total_Spend : ℚ
  Years_as_Customer : ℚ
  Num_of_Purchases : ℚ
  Average_Transaction_Amount : ℚ
  Num_of_Returns : ℚ
  Num_of_Support_Contacts : ℚ
  Satisfaction_Score : ℚ
  Last_Purchase_Days_Ago : ℚ
  Gender : String
  Email_Opt_In : String
  Promotion_Response : String
  Target_Churn : Bool
deriving Repr, DecidableEq, Inhabited

/-- A segment profile row of `cluster_profiles`: per-group means (rounded
to 2 decimals by `.round(2)`) of the numeric features and per-group modes
of the categorical features — the same shape as a record. -/
abbrev Profile := CustomerRow

/-- The dataset-wide column means that the rule conditions and the scorer
close over (`df[...].mean()` in the source). -/
structure Stats where
  mean_Last_Purchase_Days_Ago : ℚ
  mean_Years_as_Customer : ℚ
  mean_Num_of_Purchases : ℚ
  mean_Average_Transaction_Amount : ℚ
deriving Repr, DecidableEq

/-! ## Priority scorer (source lines 104-130) -/

/-- One guarded accumulation step of the objective-specific block: when
`cond` holds the statement `skor += pts; cf = calculate_cf_combination(cf,
cf_mapping[lvl])` runs, otherwise the pair is unchanged. -/
def cfStep (cond : Prop) [Decidable cond] (pts : ℤ) (lvl : String)
    (sc : ℤ × ℚ) : Option (ℤ × ℚ) :=
  if cond then (calculate_cf_combination sc.2 (cfVal lvl)).map (fun c => (sc.1 + pts, c))
  else some sc

/-- The five recognized campaign-objective labels (the `selectbox` options
in `src/app.py` and the branch labels of the scorer). -/
def recognizedObjectives : List String :=
  ["meningkatkan loyalitas pelanggan", "mencegah pelanggan churn",
   "mendapatkan pelanggan baru", "meningkatkan penjualan umum",
   "menjual produk tambahan"]

/-- The objective-specific block of `hitung_skor_prioritas_cf` (source
lines 112-127): starting from score contribution `0` and CF `0.0`, each
matching condition of the branch selected by `tujuan_kampanye` adds its
points and folds its CF level in; an unmatched label leaves `(0, 0.0)`.
The string comparisons are Python `==`: exact, case-sensitive. -/
def kriteriaKampanye (tujuan : String) (p : Profile) (st : Stats) : Option (ℤ × ℚ) :=
  if tujuan = "meningkatkan penjualan umum" then
    cfStep (p.Promotion_Response = "Merespons") 2 "hampir_pasti" (0, 0) >>= fun sc =>
    cfStep (4 ≤ p.Satisfaction_Score) 1 "tinggi" sc
  else if tujuan = "mencegah pelanggan churn" then
    cfStep (p.Target_Churn = true) 3 "pasti" (0, 0) >>= fun sc =>
    cfStep (st.mean_Last_Purchase_Days_Ago < p.Last_Purchase_Days_Ago) 2 "hampir_pasti" sc
  else if tujuan = "meningkatkan loyalitas pelanggan" then
    cfStep (p.Target_Churn = false) 3 "pasti" (0, 0) >>= fun sc =>
    cfStep (st.mean_Years_as_Customer < p.Years_as_Customer) 2 "hampir_pasti" sc >>= fun sc2 =>
    cfStep (4 ≤ p.Satisfaction_Score) 1 "tinggi" sc2
  else if tujuan = "mendapatkan pelanggan baru" then
    cfStep (p.Promotion_Response = "Merespons") 2 "hampir_pasti" (0, 0) >>= fun sc =>
    cfStep (p.Years_as_Customer < st.mean_Years_as_Customer) 1 "tinggi" sc
  else if tujuan = "menjual produk tambahan" then
    cfStep (st.mean_Num_of_Purchases < p.Num_of_Purchases) 2 "hampir_pasti" (0, 0) >>= fun sc =>
    cfStep (p.Promotion_Response = "Merespons") 1 "tinggi" sc
  else some (0, 0)

/-- `hitung_skor_prioritas_cf` (source lines 104-130): purchasing-power
block, spend block, objective-specific block, then the two pairwise CF
combinations `combine(combine(cf_daya_beli, cf_spend), cf_kriteria)`. -/
def hitung_skor_prioritas_cf (p : Profile) (harga_produk : ℚ) (tujuan_kampanye : String)
    (st : Stats) : Option (ℤ × ℚ) :=
  let daya : ℤ × ℚ :=
    if harga_produk * 10 < p.Annual_Income then (3, cfVal "sangat_tinggi")
    else if harga_produk * 5 < p.Annual_Income then (2, cfVal "tinggi")
    else (1, cfVal "sedang")
  let spend : ℤ × ℚ :=
    if harga_produk * 2 < p.Total_Spend then (2, cfVal "tinggi")
    else if harga_produk < p.Total_Spend then (1, cfVal "sedang")
    else (0, 0)
  kriteriaKampanye tujuan_kampanye p st >>= fun kc =>
  calculate_cf_combination daya.2 spend.2 >>= fun c1 =>
  (calculate_cf_combination c1 kc.2).map (fun cf_total =>
    (daya.1 + spend.1 + kc.1, cf_total))

/-! ## Profile builder and per-segment description (source lines 71-91) -/

/-- pandas column mean (`Series.mean`); groups fed to it are nonempty. -/
def meanQ (l : List ℚ) : ℚ := l.sum / (l.length : ℚ)

/-- pandas `x.mode()[0]` on a string column: the most frequent value, ties
broken toward the lexicographically smallest (pandas sorts the modes);
the source falls back to the literal used when `x.mode()` is empty. -/
def modeStr (l : List String) : String :=
  match l.dedup with
  | [] => "N/A"
  | c :: cs =>
    cs.foldl (fun acc v =>
      let ca := (l.filter (fun x => decide (x = acc))).length
      let cv := (l.filter (fun x => decide (x = v))).length
      if ca < cv then v else if cv = ca ∧ v < acc then v else acc) c

/-- pandas `x.mode()[0]` on a boolean column: `False` sorts first, so a
tie yields `false`. -/
def modeBool (l : List Bool) : Bool := decide (l.count false < l.count true)

/-- One row of `cluster_profiles` for a group of member records:
`df.groupby('Cluster').agg(mean | mode).round(2)` — numeric means rounded
to 2 decimals, categorical modes untouched by `round`. -/
def buildProfile (rows : List CustomerRow) : Profile :=
  { Age := round2 (meanQ (rows.map (·.Age)))
    Annual_Income := round2 (meanQ (rows.map (·.Annual_Income)))
    Total_Spend := round2 (meanQ (rows.map (·.Total_Spend)))
    Years_as_Customer := round2 (meanQ (rows.map (·.Years_as_Customer)))
    Num_of_Purchases := round2 (meanQ (rows.map (·.Num_of_Purchases)))
    Average_Transaction_Amount := round2 (meanQ (rows.map (·.Average_Transaction_Amount)))
    Num_of_Returns := round2 (meanQ (rows.map (·.Num_of_Returns)))
    Num_of_Support_Contacts := round2 (meanQ (rows.map (·.Num_of_Support_Contacts)))
    Satisfaction_Score := round2 (meanQ (rows.map (·.Satisfaction_Score)))
    Last_Purchase_Days_Ago := round2 (meanQ (rows.map (·.Last_Purchase_Days_Ago)))
    Gender := modeStr (rows.map (·.Gender))
    Email_Opt_In := modeStr (rows.map (·.Email_Opt_In))
    Promotion_Response := modeStr (rows.map (·.Promotion_Response))
    Target_Churn := modeBool (rows.map (·.Target_Churn)) }

/-- The distinct cluster labels actually present, in ascending order
(pandas `groupby` sorts its group keys): computed as the ascending
enumeration filtered to the present labels, which is exactly that set. -/
def groupLabels (labels : List ℕ) : List ℕ :=
  (List.range (labels.foldr max 0 + 1)).filter (fun g => labels.contains g)

/-- `cluster_profiles`: one profile per present label, keyed by label. -/
def clusterProfiles (rows : List CustomerRow) (labels : List ℕ) : List (ℕ × Profile) :=
  (groupLabels labels).map (fun g =>
    (g, buildProfile (((labels.zip rows).filter (fun lr => decide (lr.1 = g))).map (·.2))))

/-- Dataset-wide means consumed by the scorer and the rule conditions. -/
def datasetStats (rows : List CustomerRow) : Stats :=
  { mean_Last_Purchase_Days_Ago := meanQ (rows.map (·.Last_Purchase_Days_Ago))
    mean_Years_as_Customer := meanQ (rows.map (·.Years_as_Customer))
    mean_Num_of_Purchases := meanQ (rows.map (·.Num_of_Purchases))
    mean_Average_Transaction_Amount := meanQ (rows.map (·.Average_Transaction_Amount)) }

/-- The displayed numeric and categorical components of one rendered
per-segment description (source lines 80-89).  `usia_tahun` is
`int(p['Age'])`; the two money figures are the `:.2f` renderings of the
profile value divided by 1e6; `skor_kepuasan` is the profile value shown
verbatim. -/
structure ClusterDescription where
  usia_tahun : ℤ
  pendapatan_juta : ℚ
  pengeluaran_juta : ℚ
  skor_kepuasan : ℚ
  dominan : String
  frekuensi_belanja : String
  respons_promosi : String
  status_churn : String
deriving Repr, DecidableEq, Inhabited

/-- Rendering of one segment description from its profile row. -/
def render_description (p : Profile) (st : Stats) : ClusterDescription :=
  { usia_tahun := pytrunc p.Age
    pendapatan_juta := round2 (p.Annual_Income / 1000000)
    pengeluaran_juta := round2 (p.Total_Spend / 1000000)
    skor_kepuasan := p.Satisfaction_Score
    dominan := if p.Gender = "Pria" then "Pria" else "Wanita"
    frekuensi_belanja :=
      if st.mean_Num_of_Purchases < p.Num_of_Purchases then "sering" else "jarang"
    respons_promosi := p.Promotion_Response
    status_churn := if p.Target_Churn then "Cenderung Churn" else "Tidak Cenderung Churn" }

/-! ## Priority list construction and sort (source lines 132-138) -/

/-- One entry of `prioritas_klaster`. -/
structure PriorityItem where
  Klaster_ID : ℕ
  Skor_Prioritas : ℤ
  CF_Prioritas : ℚ
  Deskripsi : ClusterDescription
deriving Repr, DecidableEq, Inhabited

/-- The loop body of lines 133-136 over a list of cluster ids:
`cluster_profiles.loc[cid]` is an assoc-list lookup whose failure is the
pandas `KeyError` (`none`). -/
def buildItems (cids : List ℕ) (profiles : List (ℕ × Profile))
    (descs : List (ℕ × ClusterDescription)) (harga : ℚ) (tujuan : String)
    (st : Stats) : Option (List PriorityItem) :=
  match cids with
  | [] => some []
  | c :: cs =>
    profiles.lookup c >>= fun p =>
    hitung_skor_prioritas_cf p harga tujuan st >>= fun sc =>
    descs.lookup c >>= fun d =>
    (buildItems cs profiles descs harga tujuan st).map
      (fun rest => ⟨c, sc.1, sc.2, d⟩ :: rest)

/-- `prioritas_klaster` before sorting: the loop runs over
`range(n_clusters_chosen)`. -/
def buildPrioritas (profiles : List (ℕ × Profile)) (descs : List (ℕ × ClusterDescription))
    (K : ℕ) (harga : ℚ) (tujuan : String) (st : Stats) : Option (List PriorityItem) :=
  buildItems (List.range K) profiles descs harga tujuan st

/-- `prioritas_klaster.sort(key=lambda x: x['Skor_Prioritas'], reverse=True)`
(source line 137): CPython `list.sort` is a stable sort, and `reverse=True`
reverses the comparison, not the ties; this is exactly a stable merge sort
under the relation `a` before `b` iff `b.score ≤ a.score`. -/
def sortPrioritas (l : List PriorityItem) : List PriorityItem :=
  l.mergeSort (fun a b => decide (b.Skor_Prioritas ≤ a.Skor_Prioritas))

/-! ## Rule engine (source lines 140-166) -/

/-- One forward-chaining rule: condition over a profile (closing over the
dataset means) plus strategy text and description. -/
structure FCRule where
  IF : Profile → Stats → Bool
  THEN : String
  DESC : String

/-- `marketing_rules_fc` (source lines 140-145), in declaration order. -/
def marketing_rules_fc : List FCRule :=
  [⟨fun p _ => decide (10000000 < p.Annual_Income) && decide (4 ≤ p.Satisfaction_Score),
    "Kirim penawaran eksklusif/produk premium",
    "Cocok untuk pelanggan berpenghasilan tinggi dan puas."⟩,
   ⟨fun p st => p.Target_Churn && decide (st.mean_Last_Purchase_Days_Ago < p.Last_Purchase_Days_Ago),
    "Luncurkan kampanye retensi dengan diskon menarik",
    "Prioritas tinggi untuk mencegah pelanggan beralih."⟩,
   ⟨fun p st => decide (p.Promotion_Response = "Merespons") && decide (p.Num_of_Purchases < st.mean_Num_of_Purchases),
    "Tawarkan promosi untuk mendorong pembelian berulang",
    "Manfaatkan respons promosi untuk meningkatkan frekuensi pembelian."⟩,
   ⟨fun p st => decide (p.Average_Transaction_Amount < st.mean_Average_Transaction_Amount) && decide (st.mean_Num_of_Purchases < p.Num_of_Purchases),
    "Fokus pada up-selling atau cross-selling",
    "Dorong peningkatan nilai keranjang belanja."⟩]

/-- One backward-chaining rule: goal condition plus strategy text. -/
structure BCRule where
  THEN_IF : Profile → Stats → Bool
  STRATEGY : String

/-- `marketing_rules_bc` (source lines 146-150): keyed by objective. -/
def marketing_rules_bc : List (String × BCRule) :=
  [("meningkatkan loyalitas pelanggan",
    ⟨fun p st => !p.Target_Churn && decide (st.mean_Years_as_Customer < p.Years_as_Customer) && decide (4 ≤ p.Satisfaction_Score),
     "Kirim hadiah loyalitas atau undangan acara eksklusif."⟩),
   ("mencegah pelanggan churn",
    ⟨fun p st => p.Target_Churn && decide (st.mean_Last_Purchase_Days_Ago < p.Last_Purchase_Days_Ago),
     "Luncurkan kampanye retensi agresif."⟩),
   ("mendapatkan pelanggan baru",
    ⟨fun p st => decide (p.Promotion_Response = "Merespons") && decide (p.Years_as_Customer < st.mean_Years_as_Customer),
     "Iklankan melalui kanal yang menarik demografi klaster ini."⟩)]

/-- The forward-chaining loop (source lines 152-156): iterated over the
sorted priority items; per segment the fired rules in declaration order. -/
def fcLoop (items : List PriorityItem) (profiles : List (ℕ × Profile))
    (st : Stats) : Option (List (ℕ × List FCRule)) :=
  match items with
  | [] => some []
  | it :: rest =>
    profiles.lookup it.Klaster_ID >>= fun p =>
    (fcLoop rest profiles st).map
      (fun tail => (it.Klaster_ID, marketing_rules_fc.filter (fun r => r.IF p st)) :: tail)

/-- One entry of `bc_results`. -/
structure BCResult where
  Klaster_ID : ℕ
  Deskripsi : ClusterDescription
  Strategi : String
deriving Repr, DecidableEq

/-- The backward-chaining inner loop for a chosen rule over ascending
cluster ids (source lines 162-165). -/
def bcLoop (rule : BCRule) (cids : List ℕ) (profiles : List (ℕ × Profile))
    (descs : List (ℕ × ClusterDescription)) (st : Stats) : Option (List BCResult) :=
  match cids with
  | [] => some []
  | c :: cs =>
    profiles.lookup c >>= fun p =>
    if rule.THEN_IF p st then
      descs.lookup c >>= fun d =>
      (bcLoop rule cs profiles descs st).map (fun rest => ⟨c, d, rule.STRATEGY⟩ :: rest)
    else bcLoop rule cs profiles descs st

/-- `bc_results` (source lines 159-166): objectives outside the key set of
`marketing_rules_bc` leave the accumulator empty (the `if ... in` guard). -/
def bcResults (tujuan : String) (K : ℕ) (profiles : List (ℕ × Profile))
    (descs : List (ℕ × ClusterDescription)) (st : Stats) : Option (List BCResult) :=
  match marketing_rules_bc.lookup tujuan with
  | none => some []
  | some rule => bcLoop rule (List.range K) profiles descs st

/-! ## Hierarchical planner (source lines 168-178) -/

/-- A major action with its ordered minor steps. -/
structure Plan where
  Mayor : String
  Steps : List String
deriving Repr, DecidableEq

/-- The static plan catalog inside `get_hierarchical_plan`. -/
def plan_catalog : List (String × Plan) :=
  [("Kirim penawaran eksklusif/produk premium",
    ⟨"Luncheon Kampanye Produk Premium",
     ["Desain Materi Pemasaran", "Segmentasikan Audiens", "Jadwalkan Pengiriman"]⟩),
   ("Luncurkan kampanye retensi dengan diskon menarik",
    ⟨"Implementasi Program Retensi",
     ["Identifikasi Pelanggan Berisiko", "Rancang Penawaran Personalisasi", "Sertakan Survei Kepuasan"]⟩),
   ("Tawarkan promosi untuk mendorong pembelian berulang",
    ⟨"Optimalisasi Promosi Pembelian Berulang",
     ["Analisis Produk Sering Dibeli", "Buat Kupon/Poin Loyalitas", "Kirim Notifikasi Otomatis"]⟩),
   ("Fokus pada up-selling atau cross-selling",
    ⟨"Strategi Peningkatan Nilai Keranjang",
     ["Identifikasi Produk Komplementer", "Implementasikan Rekomendasi di Situs", "Latih Tim Penjualan"]⟩),
   ("Kirim hadiah loyalitas atau undangan acara eksklusif.",
    ⟨"Program Apresiasi Pelanggan Loyal",
     ["Verifikasi Kriteria Loyalitas", "Pilih Jenis Hadiah/Acara", "Komunikasikan Manfaat Program"]⟩),
   ("Luncurkan kampanye retensi agresif.",
    ⟨"Kampanye Retensi Agresif",
     ["Hubungi Pelanggan Secara Personal", "Tawarkan Diskon \x27Win-Back\x27", "Analisis Feedback Churn"]⟩),
   ("Iklankan melalui kanal yang menarik demografi klaster ini.",
    ⟨"Akuisisi Pelanggan Baru Tertarget",
     ["Analisis Preferensi Media", "Buat Konten Iklan Relevan", "Monitor Kinerja Iklan"]⟩)]

/-- `get_hierarchical_plan` (source lines 168-178): static lookup with the
generic fallback plan. -/
def get_hierarchical_plan (strategy_type : String) : Plan :=
  (plan_catalog.lookup strategy_type).getD
    ⟨"Strategi Umum", ["Langkah umum 1", "Langkah umum 2"]⟩

/-! ## Orchestrator (source lines 9-212) -/

/-- The result dictionary of a successful run.  The matplotlib figure,
the fitted scikit-learn objects (evaluation sweep, k-means model,
GaussianNB classifier) and the narrative summary string are presentation
or external artifacts with no bearing on the claims and are not part of
the embedded bundle. -/
structure ResultBundle where
  df_with_clusters : List (CustomerRow × ℕ)
  cluster_profiles : List (ℕ × Profile)
  cluster_descriptions : List (ℕ × ClusterDescription)
  prioritas_klaster : List PriorityItem
  forward_chaining_results : List (ℕ × List FCRule)
  backward_chaining_results : List BCResult
  hierarchical_plan : Option (String × Plan)

/-- The observable outcome of `run_full_analysis`:
* `errorDict msg` — an early `return` of the one-entry dictionary
  `{"error": msg}` (lines 28 and 37), the distinguished error surface;
* `exn msg` — an uncaught Python exception aborting the run;
* `ok bundle` — the full result dictionary. -/
inductive RunOutcome where
  | errorDict (msg : String)
  | exn (msg : String)
  | ok (bundle : ResultBundle)

/-- The selected plan (source lines 180-186): the first backward-chaining
strategy if any; otherwise the first fired forward rule of the top-ranked
segment (`fc_results.get(...)` is always present, so only emptiness
matters); `prioritas_klaster[0]` on an empty list is an `IndexError`. -/
def topPlan (bc : List BCResult) (fc : List (ℕ × List FCRule))
    (prioritas : List PriorityItem) : Except String (Option (String × Plan)) :=
  match bc with
  | b :: _ => .ok (some (b.Strategi, get_hierarchical_plan b.Strategi))
  | [] =>
    match prioritas with
    | [] => .error "IndexError: list index out of range"
    | top :: _ =>
      match (fc.lookup top.Klaster_ID).getD [] with
      | [] => .ok none
      | r :: _ => .ok (some (r.THEN, get_hierarchical_plan r.THEN))

/-- The description loop of lines 77-91 once every lookup succeeds:
rendered descriptions keyed by cluster id over `range K`. -/
def descsOf (profiles : List (ℕ × Profile)) (K : ℕ) (st : Stats) :
    List (ℕ × ClusterDescription) :=
  (List.range K).filterMap
    (fun i => (profiles.lookup i).map (fun p => (i, render_description p st)))

/-- The stages downstream of the description loop, reached only once
every id in `[0, K)` has a profile row. -/
def analyzeOk (rows : List CustomerRow) (labels : List ℕ) (K : ℕ)
    (harga : ℚ) (tujuan : String) : RunOutcome :=
  match buildPrioritas (clusterProfiles rows labels)
      (descsOf (clusterProfiles rows labels) K (datasetStats rows)) K harga tujuan
      (datasetStats rows) with
  | none => .exn "KeyError"
  | some pr0 =>
    match fcLoop (sortPrioritas pr0) (clusterProfiles rows labels) (datasetStats rows) with
    | none => .exn "KeyError"
    | some fc =>
      match bcResults tujuan K (clusterProfiles rows labels)
          (descsOf (clusterProfiles rows labels) K (datasetStats rows)) (datasetStats rows) with
      | none => .exn "KeyError"
      | some bc =>
        match topPlan bc fc (sortPrioritas pr0) with
        | .error e => .exn e
        | .ok plan =>
          .ok { df_with_clusters := rows.zip labels
                cluster_profiles := clusterProfiles rows labels
                cluster_descriptions := descsOf (clusterProfiles rows labels) K (datasetStats rows)
                prioritas_klaster := sortPrioritas pr0
                forward_chaining_results := fc
                backward_chaining_results := bc
                hierarchical_plan := plan }

/-- Everything after the schema check succeeds (source lines 39-212),
given the cluster labels the external k-means produced.  The description
loop (lines 78-90) is the first place a label absent from the fitted
partition surfaces: `cluster_profiles.loc[i]` raises `KeyError(i)` at the
smallest missing id. -/
def analyzeRun (rows : List CustomerRow) (labels : List ℕ) (K : ℕ)
    (harga : ℚ) (tujuan : String) : RunOutcome :=
  match (List.range K).find? (fun i => ((clusterProfiles rows labels).lookup i).isNone) with
  | some i => .exn ("KeyError: " ++ toString i)
  | none => analyzeOk rows labels K harga tujuan

/-- The raw tabular input as `pd.read_csv` delivers it: a column-name list
(consulted by the schema check) and the parsed records. -/
structure Table where
  columns : List String
  rows : List CustomerRow

/-- The external collaborators of the core (spec section 1 treats file
I/O and the fitted partitioning algorithm as outside the core):
`read_csv` yields `none` exactly when the path names no existing file
(`FileNotFoundError`), and `kmeans_labels df K` is the label vector of
`KMeans(n_clusters=K, random_state=42, n_init=10).fit_predict` on the
scaled-and-encoded feature matrix of `df`. -/
structure External where
  read_csv : String → Option Table
  kmeans_labels : Table → ℕ → List ℕ

/-- `fitur_numerik` (source line 31). -/
def fitur_numerik : List String :=
  ["Age", "Annual_Income", "Total_Spend", "Years_as_Customer", "Num_of_Purchases",
   "Average_Transaction_Amount", "Num_of_Returns", "Num_of_Support_Contacts",
   "Satisfaction_Score", "Last_Purchase_Days_Ago"]

/-- `fitur_kategorikal` (source line 32). -/
def fitur_kategorikal : List String :=
  ["Gender", "Email_Opt_In", "Promotion_Response", "Target_Churn"]

/-- The schema scan of lines 35-37: the first required column absent from
the table, in the fixed declaration order. -/
def findMissingColumn (cols : List String) : Option String :=
  (fitur_numerik ++ fitur_kategorikal).find? (fun c => !(cols.contains c))

/-- The schema error message of line 37. -/
def schemaErrorMsg (col : String) : String :=
  "Kolom yang dibutuhkan \x27" ++ col ++ "\x27 tidak ditemukan di dalam file CSV Anda."

/-- The file error message of line 28. -/
def fileErrorMsg (path : String) : String :=
  "File tidak ditemukan di path: " ++ path

/-- `run_full_analysis` (source lines 9-212): read the CSV (line 26-28),
scan the schema (lines 35-37), and only then hand the data to the numeric
stages.  The scaling, encoding, evaluation sweep and k-means fit all sit
behind `ext.kmeans_labels`, consulted only on the success path. -/
def run_full_analysis (ext : External) (file_path : String) (n_clusters_chosen : ℕ)
    (harga_produk : ℚ) (tujuan_kampanye : String) : RunOutcome :=
  match ext.read_csv file_path with
  | none => .errorDict (fileErrorMsg file_path)
  | some df =>
    match findMissingColumn df.columns with
    | some col => .errorDict (schemaErrorMsg col)
    | none =>
      analyzeRun df.rows (ext.kmeans_labels df n_clusters_chosen)
        n_clusters_chosen harga_produk tujuan_kampanye

/-- The caller-side normalization in `src/app.py` line 33: the selected
objective is lowercased (`.lower()`, characterwise) before
`run_full_analysis` is invoked. -/
def app_tujuan (s : String) : String := ⟨s.data.map Char.toLower⟩

/-! ## Concrete fixtures for witnesses and counterexamples -/

/-- A baseline record; the fixtures below override the relevant fields. -/
def rowBase : CustomerRow :=
  { Age := 30, Annual_Income := 0, Total_Spend := 0, Years_as_Customer := 0,
    Num_of_Purchases := 0, Average_Transaction_Amount := 0, Num_of_Returns := 0,
    Num_of_Support_Contacts := 0, Satisfaction_Score := 3, Last_Purchase_Days_Ago := 0,
    Gender := "Wanita", Email_Opt_In := "Yes", Promotion_Response := "Tidak",
    Target_Churn := false }

/-- Fixture dataset statistics: every tracked mean is 5. -/
def stFix : Stats := ⟨5, 5, 5, 5⟩

/-- A churn-flagged profile with recency above the fixture mean. -/
def pChurn : Profile := { rowBase with Target_Churn := true, Last_Purchase_Days_Ago := 10 }

/-- A rendered description fixture. -/
def dFix : ClusterDescription := render_description rowBase stFix

/-- A profile whose (already 2-dp-rounded) mean age has a fractional part. -/
def pAge : Profile := { rowBase with Age := 3567/100 }

/-- Income-only profile: priority score 3 (fixture price 10, unmatched
objective). -/
def pIncomeA : Profile := { rowBase with Annual_Income := 200 }

/-- Income-and-spend profile: priority score 5 under the same inputs. -/
def pIncomeB : Profile := { rowBase with Annual_Income := 200, Total_Spend := 25 }

/-- Three-cluster profile table with a score tie between ids 0 and 2. -/
def profilesFix : List (ℕ × Profile) := [(0, pIncomeA), (1, pIncomeB), (2, pIncomeA)]

/-- Matching description table. -/
def descsFix : List (ℕ × ClusterDescription) := [(0, dFix), (1, dFix), (2, dFix)]

/-- The unsorted priority list the fixture produces. -/
def itemsFix : List PriorityItem :=
  [⟨0, 3, 9/10, dFix⟩, ⟨1, 5, 97/100, dFix⟩, ⟨2, 3, 9/10, dFix⟩]

/-- A table lacking every numeric column (only `Gender` is present). -/
def tableMissing : Table := { columns := ["Gender"], rows := [] }

/-- A reader that finds `tableMissing` at every path. -/
def readMissing : String → Option Table := fun _ => some tableMissing

/-- A reader that finds no file at any path. -/
def readNone : String → Option Table := fun _ => none

/-- A labelling collaborator that never assigns any labels. -/
def kmlZero : Table → ℕ → List ℕ := fun _ _ => []

/-- A schema-complete two-row table. -/
def tableFull : Table :=
  { columns := fitur_numerik ++ fitur_kategorikal, rows := [rowBase, pChurn] }

/-- A reader that finds `tableFull` at every path. -/
def readFull : String → Option Table := fun _ => some tableFull

/-- A degenerate partitioning: every record lands in cluster 0 regardless
of the requested cluster count. -/
def kmlDegenerate : Table → ℕ → List ℕ := fun t _ => t.rows.map (fun _ => 0)

/-! ## Supporting lemmas -/

/-- Wherever `calculate_cf_combination` returns a value at all, inputs in
`[-1, 1]` give a result in `[-1, 1]`. -/
theorem cf_combination_range (cf1 cf2 v : ℚ)
    (h1l : -1 ≤ cf1) (h1u : cf1 ≤ 1) (h2l : -1 ≤ cf2) (h2u : cf2 ≤ 1)
    (hv : calculate_cf_combination cf1 cf2 = some v) : -1 ≤ v ∧ v ≤ 1 := by
  unfold calculate_cf_combination pydiv at hv
  split at hv
  · rename_i h
    obtain ⟨ha, hb⟩ := h
    obtain rfl : v = cf1 + cf2 * (1 - cf1) := by simpa using hv.symm
    constructor <;> nlinarith
  · split at hv
    · rename_i h
      obtain ⟨ha, hb⟩ := h
      obtain rfl : v = cf1 + cf2 * (1 + cf1) := by simpa using hv.symm
      constructor <;> nlinarith
    · rename_i hnot1 hnot2
      split at hv
      · exact absurd hv (by simp)
      · rename_i hden
        obtain rfl : v = (cf1 + cf2) / (1 - min |cf1| |cf2|) := by simpa using hv.symm
        have hma : 0 ≤ |cf1| := abs_nonneg cf1
        have hmb : 0 ≤ |cf2| := abs_nonneg cf2
        have hm1 : min |cf1| |cf2| ≤ 1 := le_trans (min_le_left _ _) (abs_le.mpr ⟨h1l, h1u⟩)
        have hmlt : min |cf1| |cf2| < 1 := lt_of_le_of_ne hm1 (by
          intro h; exact hden (by rw [h]; ring))
        have hpos : 0 < 1 - min |cf1| |cf2| := by linarith
        have habs : |cf1 + cf2| ≤ 1 - min |cf1| |cf2| := by
          rcases not_and_or.mp hnot1 with hx | hy
          · have hx : cf1 < 0 := lt_of_not_le hx
            have hy : 0 ≤ cf2 := by
              by_contra hy
              exact hnot2 ⟨hx, lt_of_not_le hy⟩
            have e1 : |cf1| = -cf1 := abs_of_neg hx
            have e2 : |cf2| = cf2 := abs_of_nonneg hy
            rw [abs_le]
            rcases min_cases |cf1| |cf2| with ⟨hmin, hle⟩ | ⟨hmin, hle⟩ <;>
              rw [hmin] <;> constructor <;> linarith [e1, e2]
          · have hy : cf2 < 0 := lt_of_not_le hy
            have hx : 0 ≤ cf1 := by
              by_contra hx
              exact hnot2 ⟨lt_of_not_le hx, hy⟩
            have e1 : |cf1| = cf1 := abs_of_nonneg hx
            have e2 : |cf2| = -cf2 := abs_of_neg hy
            rw [abs_le]
            rcases min_cases |cf1| |cf2| with ⟨hmin, hle⟩ | ⟨hmin, hle⟩ <;>
              rw [hmin] <;> constructor <;> linarith [e1, e2]
        rw [abs_le] at habs
        constructor
        · rw [le_div_iff₀ hpos]; linarith [habs.1]
        · rw [div_le_one hpos]; exact habs.2

/-- The success path never produces the distinguished error dictionary. -/
theorem analyzeOk_not_errorDict (rows : List CustomerRow) (labels : List ℕ) (K : ℕ)
    (harga : ℚ) (tujuan : String) (msg : String) :
    analyzeOk rows labels K harga tujuan ≠ .errorDict msg := by
  unfold analyzeOk
  repeat' split
  all_goals simp

/-- No stage after the schema check produces the distinguished error
dictionary: its only producers are the two early returns. -/
theorem analyzeRun_not_errorDict (rows : List CustomerRow) (labels : List ℕ) (K : ℕ)
    (harga : ℚ) (tujuan : String) (msg : String) :
    analyzeRun rows labels K harga tujuan ≠ .errorDict msg := by
  unfold analyzeRun
  split
  · simp
  · exact analyzeOk_not_errorDict rows labels K harga tujuan msg

/-- The priority-list builder tags items with exactly the ids it was
iterated over, in order. -/
theorem buildItems_ids (cids : List ℕ) (profiles : List (ℕ × Profile))
    (descs : List (ℕ × ClusterDescription)) (harga : ℚ) (tujuan : String) (st : Stats)
    (l : List PriorityItem) (h : buildItems cids profiles descs harga tujuan st = some l) :
    l.map (·.Klaster_ID) = cids := by
  induction cids generalizing l with
  | nil => simp only [buildItems] at h; simpa using (Option.some_inj.mp h).symm
  | cons c cs ih =>
    simp only [buildItems, Option.bind_eq_bind, Option.bind_eq_some, Option.map_eq_some'] at h
    obtain ⟨p, hp, sc, hsc, d, hd, rest, hrest, hl⟩ := h
    subst hl
    simp [ih rest hrest]

/-- A lookup in a key-value list built over a key list is `none` for
absent keys. -/
theorem lookup_graph_eq_none {β : Type} (ks : List ℕ) (f : ℕ → β) (i : ℕ)
    (h : i ∉ ks) : (ks.map (fun g => (g, f g))).lookup i = none := by
  induction ks with
  | nil => rfl
  | cons k ks ih =>
    simp only [List.mem_cons, not_or] at h
    simp [List.lookup, beq_eq_false_iff_ne.mpr h.1, ih h.2]

/-- Membership in the sorted group keys is membership in the labels. -/
theorem mem_groupLabels (labels : List ℕ) (i : ℕ) :
    i ∈ groupLabels labels ↔ i ∈ labels := by
  unfold groupLabels
  simp only [List.mem_filter, List.mem_range, List.contains, List.elem_eq_mem,
    decide_eq_true_eq]
  constructor
  · exact fun h => h.2
  · intro h
    refine ⟨lt_of_le_of_lt ?_ (Nat.lt_succ_self _), h⟩
    induction labels with
    | nil => cases h
    | cons a as ih =>
      rcases List.mem_cons.mp h with rfl | h2
      · exact Nat.le_max_left _ _
      · exact le_trans (ih h2) (Nat.le_max_right _ _)

/-- A lookup in a key-value list built over a key list succeeds for
present keys. -/
theorem lookup_graph_isSome {β : Type} (ks : List ℕ) (f : ℕ → β) (i : ℕ)
    (h : i ∈ ks) : ((ks.map (fun g => (g, f g))).lookup i).isSome = true := by
  induction ks with
  | nil => cases h
  | cons k ks ih =>
    rcases List.mem_cons.mp h with rfl | h2
    · simp [List.lookup]
    · by_cases hik : i = k
      · subst hik; simp [List.lookup]
      · simp [List.lookup, beq_eq_false_iff_ne.mpr hik, ih h2]

/-- `cluster_profiles.loc[i]` has no row for a label the fitted partition
never assigned. -/
theorem clusterProfiles_lookup_eq_none (rows : List CustomerRow) (labels : List ℕ)
    (i : ℕ) (h : i ∉ labels) : (clusterProfiles rows labels).lookup i = none := by
  unfold clusterProfiles
  exact lookup_graph_eq_none _ _ _ (fun hm => h ((mem_groupLabels labels i).mp hm))

/-! ## Claim C1 -/

/-- Claim C1 (code_bug): the spec requires the mixed-sign boundary
`min(|cf1|, |cf2|) == 1` to be guarded and saturate to plus or minus 1.0,
but `calculate_cf_combination` has no guard: at `cf1 = 1.0, cf2 = -1.0`
(and symmetrically) the mixed-sign branch divides by zero and the call
raises `ZeroDivisionError` (modelled as `none`) instead of returning a
saturated value.  Away from that boundary the result does stay inside
`[-1, 1]` (see `cf_combination_range`). -/
theorem c1_cf_boundary_unguarded :
    calculate_cf_combination 1 (-1) = none ∧ calculate_cf_combination (-1) 1 = none := by
  constructor <;> norm_num [calculate_cf_combination, pydiv]

/-! ## Claim C3 -/

/-- Claim C3 (counterexample): at the mixed-sign boundary input
`cf1 = 1.0, cf2 = -1.0` the function does not return the mixed-sign
formula value — it returns no value at all (`ZeroDivisionError`). -/
theorem c3_counterexample :
    ¬ (calculate_cf_combination 1 (-1) =
        some ((1 + (-1)) / (1 - min |(1 : ℚ)| |(-1 : ℚ)|))) := by
  norm_num [calculate_cf_combination, pydiv]
  simp

/-- Claim C3 (amended): `combine` returns `cf1 + cf2*(1-cf1)` when both
arguments are nonnegative, `cf1 + cf2*(1+cf1)` when both are negative,
and `(cf1+cf2) / (1 - min(|cf1|,|cf2|))` in the mixed-sign case provided
the divisor `1 - min(|cf1|,|cf2|)` is nonzero; at the boundary where it
is zero the mixed-sign branch raises instead of returning a value. -/
theorem c3_branch_formulas (cf1 cf2 : ℚ) :
    (0 ≤ cf1 → 0 ≤ cf2 →
      calculate_cf_combination cf1 cf2 = some (cf1 + cf2 * (1 - cf1)))
    ∧ (cf1 < 0 → cf2 < 0 →
      calculate_cf_combination cf1 cf2 = some (cf1 + cf2 * (1 + cf1)))
    ∧ (¬ (0 ≤ cf1 ∧ 0 ≤ cf2) → ¬ (cf1 < 0 ∧ cf2 < 0) → 1 - min |cf1| |cf2| ≠ 0 →
      calculate_cf_combination cf1 cf2 =
        some ((cf1 + cf2) / (1 - min |cf1| |cf2|))) := by
  refine ⟨fun h1 h2 => ?_, fun h1 h2 => ?_, fun h1 h2 h3 => ?_⟩ <;>
    simp [calculate_cf_combination, pydiv, h1, h2, *]

/-- Claim C3 witness: the three branch formulas evaluated at concrete
inputs through `c3_branch_formulas`. -/
theorem c3_branch_formulas_witness :
    calculate_cf_combination (1/2) (1/3) = some (1/2 + 1/3 * (1 - 1/2))
    ∧ calculate_cf_combination (-(1/2)) (-(1/3)) = some (-(1/2) + -(1/3) * (1 + -(1/2)))
    ∧ calculate_cf_combination (1/2) (-(1/3)) =
        some ((1/2 + -(1/3)) / (1 - min |(1/2 : ℚ)| |(-(1/3) : ℚ)|)) :=
  ⟨(c3_branch_formulas (1/2) (1/3)).1 (by norm_num) (by norm_num),
   (c3_branch_formulas (-(1/2)) (-(1/3))).2.1 (by norm_num) (by norm_num),
   (c3_branch_formulas (1/2) (-(1/3))).2.2 (by norm_num) (by norm_num) (by
      rw [abs_of_pos (by norm_num), abs_of_neg (by norm_num)]
      norm_num)⟩

/-! ## Claim C2 -/

/-- Claim C2: once the CSV is read, a missing required column makes
`run_full_analysis` return the one-entry error dictionary naming the
first missing column — and it does so for every behaviour of the
clustering collaborator, i.e. before any numeric work and with no partial
results; when no required column is missing (the `find?` is `none`
exactly when every required column is present) the run never produces a
schema error dictionary. -/
theorem c2_schema_fail_fast (read_csv : String → Option Table)
    (kml : Table → ℕ → List ℕ) (path : String) (K : ℕ) (harga : ℚ) (tujuan : String)
    (df : Table) (hread : read_csv path = some df) :
    (∀ col, findMissingColumn df.columns = some col →
      col ∈ fitur_numerik ++ fitur_kategorikal ∧ df.columns.contains col = false ∧
      ∀ kml2 : Table → ℕ → List ℕ,
        run_full_analysis ⟨read_csv, kml2⟩ path K harga tujuan =
          .errorDict (schemaErrorMsg col))
    ∧ (findMissingColumn df.columns = none ↔
        ∀ col ∈ fitur_numerik ++ fitur_kategorikal, df.columns.contains col = true)
    ∧ (findMissingColumn df.columns = none →
        ∀ msg, run_full_analysis ⟨read_csv, kml⟩ path K harga tujuan ≠ .errorDict msg) := by
  refine ⟨fun col hcol => ⟨List.mem_of_find?_eq_some hcol, ?_, fun kml2 => ?_⟩,
    ?_, fun hnone msg hcontra => ?_⟩
  · simpa using List.find?_some hcol
  · simp [run_full_analysis, hread, hcol]
  · unfold findMissingColumn
    rw [List.find?_eq_none]
    constructor <;> (intro h col hc; simpa using h col hc)
  · have hred : run_full_analysis ⟨read_csv, kml⟩ path K harga tujuan =
        analyzeRun df.rows (kml df K) K harga tujuan := by
      simp [run_full_analysis, hread, hnone]
    rw [hred] at hcontra
    exact analyzeRun_not_errorDict _ _ _ _ _ msg hcontra

/-- Claim C2 witness: a table exposing only a `Gender` column is rejected
with the schema dictionary naming `Age`, the first required column, via
`c2_schema_fail_fast`. -/
theorem c2_schema_fail_fast_witness :
    run_full_analysis ⟨readMissing, kmlZero⟩ "data.csv" 3 150000
        "mencegah pelanggan churn" = .errorDict (schemaErrorMsg "Age") :=
  ((c2_schema_fail_fast readMissing kmlZero "data.csv" 3 150000
      "mencegah pelanggan churn" tableMissing rfl).1 "Age" rfl).2.2 kmlZero

/-! ## Claim C5 -/

/-- Claim C5: for the objective `mencegah pelanggan churn`, a profile
with the churn flag set and recency above the dataset mean gets the
objective-specific contribution `(5, 1.0)`: points `3 + 2`, and the CF
built by folding in `pasti` (1.0) and then `hampir_pasti` (0.8), whose
combination is exactly 1.0. -/
theorem c5_churn_objective_block (p : Profile) (st : Stats)
    (h1 : p.Target_Churn = true)
    (h2 : st.mean_Last_Purchase_Days_Ago < p.Last_Purchase_Days_Ago) :
    cfVal "pasti" = 1 ∧ cfVal "hampir_pasti" = 8/10
    ∧ calculate_cf_combination 0 (cfVal "pasti") = some 1
    ∧ calculate_cf_combination 1 (cfVal "hampir_pasti") = some 1
    ∧ kriteriaKampanye "mencegah pelanggan churn" p st = some (5, 1) := by
  refine ⟨by simp [cfVal, cf_mapping, List.lookup],
    by simp [cfVal, cf_mapping, List.lookup], ?_, ?_, ?_⟩
  · simp [cfVal, cf_mapping, List.lookup, calculate_cf_combination]
  · simp [cfVal, cf_mapping, List.lookup, calculate_cf_combination]
    norm_num
  · simp [kriteriaKampanye, cfStep, h1, h2, cfVal, cf_mapping, List.lookup,
      calculate_cf_combination]
    norm_num

/-- Claim C5 witness: the churn block at the concrete fixture profile,
via `c5_churn_objective_block`. -/
theorem c5_churn_objective_block_witness :
    cfVal "pasti" = 1 ∧ cfVal "hampir_pasti" = 8/10
    ∧ calculate_cf_combination 0 (cfVal "pasti") = some 1
    ∧ calculate_cf_combination 1 (cfVal "hampir_pasti") = some 1
    ∧ kriteriaKampanye "mencegah pelanggan churn" pChurn stFix = some (5, 1) :=
  c5_churn_objective_block pChurn stFix rfl (by decide)

/-! ## Claim C6 -/

/-- Claim C6: any objective label outside the recognized five contributes
`(0, 0.0)` in the scorer's objective-specific block without raising, and
backward chaining yields the empty result list (its guard fails, so its
loop body — the only raising code — never runs). -/
theorem c6_unrecognized_objective (tujuan : String) (h : tujuan ∉ recognizedObjectives)
    (p : Profile) (st : Stats) (K : ℕ) (profiles : List (ℕ × Profile))
    (descs : List (ℕ × ClusterDescription)) :
    kriteriaKampanye tujuan p st = some (0, 0)
    ∧ bcResults tujuan K profiles descs st = some [] := by
  simp only [recognizedObjectives, List.mem_cons, List.not_mem_nil, or_false, not_or] at h
  obtain ⟨h1, h2, h3, h4, h5⟩ := h
  constructor
  · simp [kriteriaKampanye, h1, h2, h3, h4, h5]
  · simp [bcResults, marketing_rules_bc, List.lookup, beq_eq_false_iff_ne.mpr h1,
      beq_eq_false_iff_ne.mpr h2, beq_eq_false_iff_ne.mpr h3]

/-- Claim C6 witness: the unrecognized label `promosi`, via
`c6_unrecognized_objective`. -/
theorem c6_unrecognized_objective_witness :
    kriteriaKampanye "promosi" rowBase stFix = some (0, 0)
    ∧ bcResults "promosi" 3 [] [] stFix = some [] :=
  c6_unrecognized_objective "promosi" (by decide) rowBase stFix 3 [] []

/-! ## Claim C7 -/

/-- Claim C7 (counterexample): the scorer and the backward chainer
compare the objective with case-sensitive `==`.  At the capitalized
casing `Mencegah Pelanggan Churn` of a recognized label, a churn-flagged
high-recency profile gets objective contribution `(0, 0.0)` and an empty
backward-chaining result, while the lowercase label gets `(5, 1.0)` and a
nonempty result — so the casing does not behave as the lowercase label. -/
theorem c7_counterexample :
    kriteriaKampanye "Mencegah Pelanggan Churn" pChurn stFix = some (0, 0)
    ∧ kriteriaKampanye "mencegah pelanggan churn" pChurn stFix = some (5, 1)
    ∧ bcResults "Mencegah Pelanggan Churn" 1 [(0, pChurn)] [(0, dFix)] stFix = some []
    ∧ bcResults "mencegah pelanggan churn" 1 [(0, pChurn)] [(0, dFix)] stFix =
        some [⟨0, dFix, "Luncurkan kampanye retensi agresif."⟩] := by
  refine ⟨rfl, ?_, rfl, rfl⟩
  simp [kriteriaKampanye, cfStep, pChurn, rowBase, stFix, cfVal, cf_mapping,
    List.lookup, calculate_cf_combination]
  norm_num

/-- Claim C7 (amended): the objective comparison inside the scorer and
the backward chainer is case-sensitive — a non-lowercase casing of a
recognized label is simply unrecognized there (contribution `(0, 0.0)`,
empty backward-chaining result); case-insensitive behaviour of the five
labels holds only end to end because the caller `src/app.py` lowercases
the selection (`app_tujuan`) before invoking `run_full_analysis`. -/
theorem c7_case_sensitive_scorer (p : Profile) (st : Stats) (K : ℕ)
    (profiles : List (ℕ × Profile)) (descs : List (ℕ × ClusterDescription)) :
    "Mencegah Pelanggan Churn" ∉ recognizedObjectives
    ∧ kriteriaKampanye "Mencegah Pelanggan Churn" p st = some (0, 0)
    ∧ bcResults "Mencegah Pelanggan Churn" K profiles descs st = some []
    ∧ app_tujuan "Mencegah Pelanggan Churn" = "mencegah pelanggan churn" :=
  ⟨by decide, rfl, rfl, by decide⟩

/-! ## Claim C4 -/

/-- Claim C4: the priority list is built over ascending cluster ids
`0..K-1` and then sorted by the integer score alone, descending
(`sort(key=Skor_Prioritas, reverse=True)`, a stable sort): the result is
a permutation of the built list, pairwise descending in score, and any
two items with equal score — whatever their CFs — keep their relative
(ascending-id) input order. -/
theorem c4_priority_ranking (profiles : List (ℕ × Profile))
    (descs : List (ℕ × ClusterDescription)) (K : ℕ) (harga : ℚ) (tujuan : String)
    (st : Stats) (l : List PriorityItem)
    (hbuild : buildPrioritas profiles descs K harga tujuan st = some l) :
    l.map (·.Klaster_ID) = List.range K
    ∧ (sortPrioritas l).Pairwise (fun a b => b.Skor_Prioritas ≤ a.Skor_Prioritas)
    ∧ (sortPrioritas l).Perm l
    ∧ ∀ x y, [x, y].Sublist l → x.Skor_Prioritas = y.Skor_Prioritas →
        [x, y].Sublist (sortPrioritas l) := by
  have hids := buildItems_ids (List.range K) profiles descs harga tujuan st l hbuild
  have htrans : ∀ a b c : PriorityItem,
      decide (b.Skor_Prioritas ≤ a.Skor_Prioritas) = true →
      decide (c.Skor_Prioritas ≤ b.Skor_Prioritas) = true →
      decide (c.Skor_Prioritas ≤ a.Skor_Prioritas) = true := by
    intro a b c h1 h2
    simp only [decide_eq_true_eq] at h1 h2 ⊢
    exact le_trans h2 h1
  have htotal : ∀ a b : PriorityItem,
      (decide (b.Skor_Prioritas ≤ a.Skor_Prioritas)
        || decide (a.Skor_Prioritas ≤ b.Skor_Prioritas)) = true := by
    intro a b
    simpa using le_total b.Skor_Prioritas a.Skor_Prioritas
  unfold sortPrioritas
  refine ⟨hids, ?_, List.mergeSort_perm l _, fun x y hsub heq => ?_⟩
  · exact (List.sorted_mergeSort htrans htotal l).imp (fun h => by simpa using h)
  · exact List.pair_sublist_mergeSort htrans htotal (by simpa using heq.ge) hsub

/-- Claim C4 witness: the fixture with scores `[3, 5, 3]` over ids
`[0, 1, 2]`, via `c4_priority_ranking`; in particular the tied items 0
and 2 stay in ascending-id order in the sorted output. -/
theorem c4_priority_ranking_witness :
    buildPrioritas profilesFix descsFix 3 10 "x" stFix = some itemsFix
    ∧ [⟨0, 3, 9/10, dFix⟩, ⟨2, 3, 9/10, dFix⟩].Sublist (sortPrioritas itemsFix) := by
  have hA : hitung_skor_prioritas_cf pIncomeA 10 "x" stFix = some (3, 9/10) := by
    simp [hitung_skor_prioritas_cf, kriteriaKampanye, pIncomeA, rowBase, cfVal,
      cf_mapping, List.lookup, calculate_cf_combination]
    norm_num
  have hB : hitung_skor_prioritas_cf pIncomeB 10 "x" stFix = some (5, 97/100) := by
    simp [hitung_skor_prioritas_cf, kriteriaKampanye, pIncomeB, rowBase, cfVal,
      cf_mapping, List.lookup, calculate_cf_combination]
    norm_num
  have hbuild : buildPrioritas profilesFix descsFix 3 10 "x" stFix = some itemsFix := by
    have hr : List.range 3 = [0, 1, 2] := rfl
    simp [buildPrioritas, hr, buildItems, List.lookup, profilesFix, descsFix, hA, hB,
      itemsFix]
  have h := c4_priority_ranking profilesFix descsFix 3 10 "x" stFix itemsFix hbuild
  refine ⟨hbuild, h.2.2.2 _ _ ?_ rfl⟩
  unfold itemsFix
  exact .cons₂ _ (.cons _ (.cons₂ _ .slnil))

/-! ## Claim C8 -/

/-- Claim C8 (counterexample): a partition that never assigns cluster 1
although `K = 2` was requested does not surface a reportable
`DegenerateClusteringError` — no such error value exists in the program;
the run aborts with an uncaught `KeyError` from `cluster_profiles.loc[1]`
in the description loop (the `exn` outcome, distinct from the program's
single distinguished `errorDict` surface). -/
theorem c8_counterexample :
    run_full_analysis ⟨readFull, kmlDegenerate⟩ "data.csv" 2 10 "x" =
      .exn ("KeyError: " ++ toString 1) := rfl

/-- Claim C8 (amended): when the fitted partition misses some id below
the requested `K` (and the schema check passed), the pipeline does not
tolerate it silently, but it also produces no reportable error value: it
aborts with an uncaught `KeyError` naming the first missing id. -/
theorem c8_degenerate_partition_crashes (read_csv : String → Option Table)
    (kml : Table → ℕ → List ℕ) (path : String) (K : ℕ) (harga : ℚ) (tujuan : String)
    (df : Table) (i : ℕ) (hread : read_csv path = some df)
    (hschema : findMissingColumn df.columns = none)
    (hK : i < K) (hmiss : i ∉ kml df K) :
    ∃ j, j < K ∧ j ∉ kml df K ∧
      run_full_analysis ⟨read_csv, kml⟩ path K harga tujuan =
        .exn ("KeyError: " ++ toString j) := by
  have hrun : run_full_analysis ⟨read_csv, kml⟩ path K harga tujuan =
      analyzeRun df.rows (kml df K) K harga tujuan := by
    simp [run_full_analysis, hread, hschema]
  have hpi : ((clusterProfiles df.rows (kml df K)).lookup i).isNone = true := by
    rw [clusterProfiles_lookup_eq_none df.rows (kml df K) i hmiss]
    rfl
  have hsome : ((List.range K).find?
      (fun j => ((clusterProfiles df.rows (kml df K)).lookup j).isNone)).isSome = true := by
    rw [List.find?_isSome]
    exact ⟨i, List.mem_range.mpr hK, hpi⟩
  obtain ⟨j, hj⟩ := Option.isSome_iff_exists.mp hsome
  refine ⟨j, List.mem_range.mp (List.mem_of_find?_eq_some hj), fun hmem => ?_, ?_⟩
  · have hnone := List.find?_some hj
    have hin := lookup_graph_isSome (groupLabels (kml df K))
      (fun g => buildProfile ((((kml df K).zip df.rows).filter
        (fun lr => decide (lr.1 = g))).map (·.2))) j
      ((mem_groupLabels (kml df K) j).mpr hmem)
    rw [Option.isNone_iff_eq_none] at hnone
    rw [show (groupLabels (kml df K)).map (fun g => (g, buildProfile ((((kml df K).zip
        df.rows).filter (fun lr => decide (lr.1 = g))).map (·.2)))) =
      clusterProfiles df.rows (kml df K) from rfl, hnone] at hin
    cases hin
  · rw [hrun]
    unfold analyzeRun
    rw [hj]

/-- Claim C8 witness: the degenerate all-zero labelling on a two-row
schema-complete table with `K = 2`, via
`c8_degenerate_partition_crashes`. -/
theorem c8_degenerate_partition_crashes_witness :
    ∃ j, j < 2 ∧ j ∉ kmlDegenerate tableFull 2 ∧
      run_full_analysis ⟨readFull, kmlDegenerate⟩ "data.csv" 2 10 "x" =
        .exn ("KeyError: " ++ toString j) :=
  c8_degenerate_partition_crashes readFull kmlDegenerate "data.csv" 2 10 "x"
    tableFull 1 rfl rfl (by decide) (by decide)

/-! ## Claim C9 -/

/-- Claim C9 (counterexample): the rendered age is not rounded to 2
decimal places: at a profile whose mean age is 35.67, the description
shows `int(p['Age'])`, namely 35, not the 2-decimal rounding 35.67. -/
theorem c9_counterexample :
    ¬ (((render_description pAge stFix).usia_tahun : ℚ) = round2 pAge.Age) := by
  have h1 : (render_description pAge stFix).usia_tahun = 35 := by
    show pytrunc (3567/100 : ℚ) = 35
    rw [pytrunc, if_pos (by norm_num)]
    rw [Int.floor_eq_iff]
    norm_num
  have h2 : round2 pAge.Age = 3567/100 := by
    show round2 (3567/100 : ℚ) = 3567/100
    rw [round2, roundHalfEven]
    norm_num
  rw [h1, h2]
  norm_num

/-- Claim C9 (amended): in the rendered description, the income and
spend figures are 2-decimal roundings (of the profile value over 1e6,
the profile value itself being the 2-decimal rounding of the group
mean), and the displayed satisfaction score is the 2-decimal rounding of
the group mean; each of these is an integer number of hundredths.  The
age, however, is truncated to an integer (`int(p['Age'])`), not rendered
to 2 decimal places. -/
theorem c9_rendered_rounding (rows : List CustomerRow) (st : Stats) :
    (render_description (buildProfile rows) st).pendapatan_juta =
      round2 (round2 (meanQ (rows.map (·.Annual_Income))) / 1000000)
    ∧ (∃ n : ℤ, (render_description (buildProfile rows) st).pendapatan_juta = (n : ℚ) / 100)
    ∧ (render_description (buildProfile rows) st).pengeluaran_juta =
      round2 (round2 (meanQ (rows.map (·.Total_Spend))) / 1000000)
    ∧ (∃ n : ℤ, (render_description (buildProfile rows) st).pengeluaran_juta = (n : ℚ) / 100)
    ∧ (render_description (buildProfile rows) st).skor_kepuasan =
      round2 (meanQ (rows.map (·.Satisfaction_Score)))
    ∧ (∃ n : ℤ, (render_description (buildProfile rows) st).skor_kepuasan = (n : ℚ) / 100)
    ∧ (render_description (buildProfile rows) st).usia_tahun =
      pytrunc (round2 (meanQ (rows.map (·.Age)))) :=
  ⟨rfl, ⟨_, rfl⟩, rfl, ⟨_, rfl⟩, rfl, ⟨_, rfl⟩, rfl⟩

/-! ## Claim C10 -/

/-- Claim C10: when the reader finds no file at the path,
`run_full_analysis` returns the one-entry error dictionary naming the
path — for every behaviour of the clustering collaborator, so no
analysis work is consulted and no exception escapes. -/
theorem c10_file_not_found (read_csv : String → Option Table)
    (kml : Table → ℕ → List ℕ) (path : String) (K : ℕ) (harga : ℚ) (tujuan : String)
    (h : read_csv path = none) :
    run_full_analysis ⟨read_csv, kml⟩ path K harga tujuan =
      .errorDict (fileErrorMsg path) := by
  simp [run_full_analysis, h]

/-- Claim C10 witness: the file-not-found dictionary at a concrete path,
via `c10_file_not_found`. -/
theorem c10_file_not_found_witness :
    run_full_analysis ⟨readNone, kmlZero⟩ "data.csv" 5 150000 "mencegah pelanggan churn" =
      .errorDict (fileErrorMsg "data.csv") :=
  c10_file_not_found readNone kmlZero "data.csv" 5 150000 "mencegah pelanggan churn" rfl

end CSeg
